import Mathlib

/-
Verification development for the phx-common-modules repository ("sucrim"):
a shallow embedding, in Lean 4, of the exception taxonomy, the exception-to-HTTP
adapter, the pagination/response DTOs, the Keycloak JWT claim decoder and the
Keycloak admin auth provider, together with theorems settling the spec claims.

Python values appearing in JWT claim dictionaries are modelled by the `JValue`
JSON-like type; Python strings are modelled by Lean `String`, with the Python
string operations the code uses (split, strip, startswith, substring test)
re-implemented structurally over the character list so that all definitions
evaluate by kernel reduction.
-/

set_option autoImplicit false

namespace Sucrim

/-- JSON-like values as decoded from a JWT payload (Python objects produced by
`json.loads`): null, booleans, integers, strings, arrays and objects.  Objects
are association lists in insertion order, mirroring Python dicts. -/
inductive JValue where
  | null
  | bool (b : Bool)
  | num (n : Int)
  | str (s : String)
  | arr (xs : List JValue)
  | obj (fields : List (String × JValue))

/-- First-match association lookup: Python `dict[k]` access for a dict built
from an association list with distinct keys. -/
def jlookup (fields : List (String × JValue)) (k : String) : Option JValue :=
  match fields with
  | [] => none
  | (k', v) :: rest => if k' = k then some v else jlookup rest k

/-- Python `claims.get(k)`: returns `None` both when the key is absent and when
it is present with a JSON null value, so the embedding collapses the two. -/
def pyGet (fields : List (String × JValue)) (k : String) : Option JValue :=
  match jlookup fields k with
  | some JValue.null => none
  | r => r

/-- Python truthiness of a decoded JSON value. -/
def pyTruthy : JValue → Bool
  | JValue.null => false
  | JValue.bool b => b
  | JValue.num n => n != 0
  | JValue.str s => s != ""
  | JValue.arr xs => !xs.isEmpty
  | JValue.obj fs => !fs.isEmpty

mutual

/-- Python `repr` of a decoded JSON value (escape sequences inside strings are
not modelled; no claim depends on them). -/
def pyRepr : JValue → String
  | JValue.null => "None"
  | JValue.bool true => "True"
  | JValue.bool false => "False"
  | JValue.num n => toString n
  | JValue.str s => "'" ++ s ++ "'"
  | JValue.arr xs => "[" ++ String.intercalate ", " (pyReprList xs) ++ "]"
  | JValue.obj fs => "\x7b" ++ String.intercalate ", " (pyReprFields fs) ++ "\x7d"

def pyReprList : List JValue → List String
  | [] => []
  | x :: xs => pyRepr x :: pyReprList xs

def pyReprFields : List (String × JValue) → List String
  | [] => []
  | (k, v) :: fs => ("'" ++ k ++ "': " ++ pyRepr v) :: pyReprFields fs

end

/-- Python `str(value)`: the identity on strings, `repr` otherwise. -/
def pyStr (v : JValue) : String :=
  match v with
  | JValue.str s => s
  | v => pyRepr v

/-! ### Python string primitives

The Python string operations used by the source, re-implemented structurally
over `List Char` so they compute by kernel reduction. -/

/-- Whether `pre` is a prefix of `cs` (Python `startswith`, and the matching
step of `split`). -/
def listIsPre : List Char → List Char → Bool
  | [], _ => true
  | _ :: _, [] => false
  | a :: as, b :: bs => a == b && listIsPre as bs

/-- Worker for `pySplit`: fuel-driven scan that cuts `cs` at every
(non-overlapping, leftmost-first) occurrence of `sep`, accumulating the
current fragment in `acc` (reversed).  The fuel is at least `cs.length + 1`
at every call, so the fuel-exhausted branch is never taken. -/
def splitAux (sep : List Char) : Nat → List Char → List Char → List (List Char)
  | 0, acc, _ => [acc.reverse]
  | _ + 1, acc, [] => [acc.reverse]
  | fuel + 1, acc, c :: cs =>
    if listIsPre sep (c :: cs) then
      acc.reverse :: splitAux sep fuel [] (List.drop sep.length (c :: cs))
    else
      splitAux sep fuel (c :: acc) cs

/-- Python `s.split(sep)` for a non-empty separator. -/
def pySplit (s sep : String) : List String :=
  (splitAux sep.data (s.data.length + 1) [] s.data).map (fun cs => String.mk cs)

/-- Python `sub in s` (substring containment, for a non-empty `sub`):
equivalently, splitting on `sub` yields more than one fragment. -/
def pyInStr (sub s : String) : Bool :=
  1 < (pySplit s sub).length

/-- Python `str.strip()` whitespace set (ASCII portion). -/
def isPySpace (c : Char) : Bool :=
  c == ' ' || c == '\t' || c == '\n' || c == '\r' || c == '\x0b' || c == '\x0c'

/-- Python `s.strip()`: remove leading and trailing whitespace. -/
def pyStrip (s : String) : String :=
  String.mk (((s.data.dropWhile isPySpace).reverse.dropWhile isPySpace).reverse)

/-- ASCII lower-casing of one character (Python `str.lower` restricted to
ASCII, which is all the decoder compares against). -/
def lowChar (c : Char) : Char :=
  if 'A' ≤ c && c ≤ 'Z' then Char.ofNat (c.toNat + 32) else c

/-- Python `s.lower()` (ASCII portion). -/
def pyLower (s : String) : String :=
  String.mk (s.data.map lowChar)

/-! ### Error taxonomy

`src/exceptions/business_exception.py` and its subtypes.  A constructed
exception instance is a record of the four attributes the constructor stores;
each Python subtype is embedded as a constructor function fixing the status
code, plus a `mkDefault` function applying the Python default arguments
(construction "with only a message"). -/

/-- The attributes stored by `BusinessException.__init__`. -/
structure BusinessException where
  message : String
  process : String
  statusCode : Int
  errors : List JValue

/-- `BusinessException.__init__(message, process, status_code, errors)`;
`self.errors = errors or []` turns an absent (None) list into `[]`. -/
def BusinessException.mkFull (message process : String) (statusCode : Int)
    (errors : Option (List JValue)) : BusinessException :=
  { message := message, process := process, statusCode := statusCode,
    errors := errors.getD [] }

/-- `BusinessException(message, process)` with the default `status_code=400`
and `errors=None`. -/
def BusinessException.mkDefault (message process : String) : BusinessException :=
  BusinessException.mkFull message process 400 none

/-- `BusinessException.__str__`. -/
def BusinessException.strForm (e : BusinessException) : String :=
  e.process ++ ": " ++ e.message

/-- `BadRequestException.__init__`: status 400. -/
def BadRequestException.mk (message process : String)
    (errors : Option (List JValue)) : BusinessException :=
  BusinessException.mkFull message process 400 errors

/-- `BadRequestException(message)` with default process. -/
def BadRequestException.mkDefault (message : String) : BusinessException :=
  BadRequestException.mk message "Processing Client Request" none

/-- `UnauthorizedException.__init__`: status 401. -/
def UnauthorizedException.mk (message process : String)
    (errors : Option (List JValue)) : BusinessException :=
  BusinessException.mkFull message process 401 errors

/-- `UnauthorizedException(message)` with default process. -/
def UnauthorizedException.mkDefault (message : String) : BusinessException :=
  UnauthorizedException.mk message "Authentication" none

/-- `ForbiddenException.__init__`: status 403. -/
def ForbiddenException.mk (message process : String)
    (errors : Option (List JValue)) : BusinessException :=
  BusinessException.mkFull message process 403 errors

/-- `ForbiddenException(message)` with default process. -/
def ForbiddenException.mkDefault (message : String) : BusinessException :=
  ForbiddenException.mk message "Authorization" none

/-- `NotFoundException.__init__`: status 404. -/
def NotFoundException.mk (message process : String)
    (errors : Option (List JValue)) : BusinessException :=
  BusinessException.mkFull message process 404 errors

/-- `NotFoundException(message)` with default process. -/
def NotFoundException.mkDefault (message : String) : BusinessException :=
  NotFoundException.mk message "Resource Lookup" none

/-- `ConflictException.__init__`: status 409. -/
def ConflictException.mk (message process : String)
    (errors : Option (List JValue)) : BusinessException :=
  BusinessException.mkFull message process 409 errors

/-- `ConflictException(message)` with default process. -/
def ConflictException.mkDefault (message : String) : BusinessException :=
  ConflictException.mk message "Resource Conflict" none

/-- `UnprocessableEntityException.__init__`: status 422. -/
def UnprocessableEntityException.mk (message process : String)
    (errors : Option (List JValue)) : BusinessException :=
  BusinessException.mkFull message process 422 errors

/-- `UnprocessableEntityException(message)` with default process. -/
def UnprocessableEntityException.mkDefault (message : String) : BusinessException :=
  UnprocessableEntityException.mk message "Data Validation" none

/-- `InternalServerErrorException.__init__`: status 500. -/
def InternalServerErrorException.mk (message process : String)
    (errors : Option (List JValue)) : BusinessException :=
  BusinessException.mkFull message process 500 errors

/-- `InternalServerErrorException(message)` with default process. -/
def InternalServerErrorException.mkDefault (message : String) : BusinessException :=
  InternalServerErrorException.mk message "Internal Server Error" none

/-- `ServiceUnavailableException.__init__`: status 503. -/
def ServiceUnavailableException.mk (message process : String)
    (errors : Option (List JValue)) : BusinessException :=
  BusinessException.mkFull message process 503 errors

/-- `ServiceUnavailableException(message)` with default process. -/
def ServiceUnavailableException.mkDefault (message : String) : BusinessException :=
  ServiceUnavailableException.mk message "Service Availability" none

/-- `ValidationException.__init__`: caller-supplied process, overridable
status code. -/
def ValidationException.mk (message process : String) (statusCode : Int)
    (errors : Option (List JValue)) : BusinessException :=
  BusinessException.mkFull message process statusCode errors

/-- `ValidationException(message, process)` with the default
`status_code=422`. -/
def ValidationException.mkDefault (message process : String) : BusinessException :=
  ValidationException.mk message process 422 none

/-! ### Exception-to-HTTP adapter

`src/sucrim/http/exception_handlers.py`.  FastAPI selects the registered
handler whose exception class is the most specific match for the thrown
error; the four registered classes are disjoint in that order, so the
dispatch is embedded as a match on a sum of the four cases. -/

/-- The kinds of error reaching the adapter, tagged by which registered
handler FastAPI selects for them. -/
inductive RaisedException where
  | business (e : BusinessException)
  | expiredSignature
  | httpException (statusCode : Int) (detail : String)
  | otherException (detail : String)

/-- A `JSONResponse`: HTTP status plus the `{message, process, errors}` body. -/
structure JsonResponse where
  statusCode : Int
  message : String
  process : String
  errors : Option (List JValue)

/-- The dispatch performed by the four handlers registered in
`setup_exception_handlers`. -/
def handleException : RaisedException → JsonResponse
  | RaisedException.business e =>
    { statusCode := e.statusCode, message := e.message, process := e.process,
      errors := some e.errors }
  | RaisedException.expiredSignature =>
    { statusCode := 401, message := "Token has expired.",
      process := "access_token", errors := none }
  | RaisedException.httpException statusCode detail =>
    if statusCode = 403 && pyInStr "is required to perform this action" detail then
      { statusCode := statusCode,
        message := "You are not authorized to perform this action",
        process := "general_error", errors := none }
    else
      { statusCode := statusCode, message := detail,
        process := "general_error", errors := none }
  | RaisedException.otherException _ =>
    { statusCode := 500, message := "An unexpected error occurred",
      process := "internal_error", errors := none }

/-! ### Pagination and response envelope

`src/data/pagination.py` and `src/response/api_response_dto.py`. -/

/-- The `Pagination` model: page index, page size, optional totals. -/
structure Pagination where
  page : Int
  size : Int
  totalElements : Option Int
  totalPages : Option Int
deriving DecidableEq

/-- The `ApiResponseDto` envelope: optional payload, optional pagination. -/
structure ApiResponseDto (α : Type) where
  data : Option α
  pagination : Option Pagination

/-- `ApiResponseDto.ok`. -/
def ApiResponseDto.ok {α : Type} (data : Option α) : ApiResponseDto α :=
  { data := data, pagination := none }

/-- `ApiResponseDto.ok_with_pagination`. -/
def ApiResponseDto.okWithPagination {α : Type} (data : List α)
    (pagination : Pagination) : ApiResponseDto (List α) :=
  { data := some data, pagination := some pagination }

/-- `ApiResponseDto.ok_from_page`: back-fills `total_elements` when supplied
and computes `total_pages = (total_elements + size - 1) // size` (Python floor
division, i.e. `Int.fdiv`) when `size > 0`. -/
def ApiResponseDto.okFromPage {α : Type} (pageResult : List α)
    (pagination : Pagination) (totalElements : Option Int) :
    ApiResponseDto (List α) :=
  match totalElements with
  | none => { data := some pageResult, pagination := some pagination }
  | some n =>
    let p1 := { pagination with totalElements := some n }
    let p2 :=
      if pagination.size > 0 then
        { p1 with totalPages := some ((n + pagination.size - 1).fdiv pagination.size) }
      else p1
    { data := some pageResult, pagination := some p2 }

/-! ### Keycloak user record and JWT claim decoder

`src/sucrim/keycloak/keycloak_user.py` and
`src/sucrim/keycloak/keycloak_jwt_decoder.py`. -/

/-- The `KeycloakUser` model. -/
structure KeycloakUser where
  username : Option String
  keycloakUserId : Option String
  tenantId : Option String
  email : Option String
  firstName : Option String
  lastName : Option String
  realm : Option String
  clientId : Option String
  roles : List String
  emailVerified : Option Bool

/-- `KeycloakJwtDecoder._normalize_token`: strip a leading `"Bearer "`. -/
def normalizeToken (token : String) : String :=
  if listIsPre "Bearer ".data token.data then String.mk (token.data.drop 7)
  else token

/-- `KeycloakJwtDecoder._is_valid_jwt_format`: the bearer-stripped token must
split on `"."` into exactly three segments. -/
def isValidJwtFormat (token : String) : Bool :=
  (pySplit (normalizeToken token) ".").length == 3

/-- `KeycloakJwtDecoder._get_claim_as_string`: `str(value)` unless the value
is already a string; `None` when absent. -/
def getClaimAsString (claims : List (String × JValue)) (name : String) :
    Option String :=
  match pyGet claims name with
  | none => none
  | some v => some (pyStr v)

/-- `KeycloakJwtDecoder._get_claim_as_boolean`. -/
def getClaimAsBoolean (claims : List (String × JValue)) (name : String) :
    Option Bool :=
  match pyGet claims name with
  | none => none
  | some (JValue.bool b) => some b
  | some (JValue.str s) =>
    some (pyLower s == "true" || pyLower s == "1" || pyLower s == "yes")
  | some v => some (pyTruthy v)

/-- The issuer half of `KeycloakJwtDecoder._extract_realm`: for a truthy
string `iss` claim containing `"/realms/"`, split on `"/realms/"` and take
`parts[1].split("/")[0]` when it is non-empty. -/
def realmFromIss (issClaim : Option JValue) : Option String :=
  match issClaim with
  | some (JValue.str s) =>
    if s != "" && pyInStr "/realms/" s then
      match pySplit s "/realms/" with
      | _ :: p1 :: _ =>
        let realm := (pySplit p1 "/").headD ""
        if realm != "" then some realm else none
      | _ => none
    else none
  | _ => none

/-- `KeycloakJwtDecoder._extract_realm`: try the issuer first; when that
yields nothing, fall back to `str` of the `realm` claim, or `None` when
absent. -/
def extractRealm (claims : List (String × JValue)) : Option String :=
  match realmFromIss (pyGet claims "iss") with
  | some r => some r
  | none =>
    match pyGet claims "realm" with
    | none => none
    | some v => some (pyStr v)

/-- The list comprehension `[str(role) for role in roles if role]` used by
`_extract_roles`: keep the truthy elements, coerced by `str`. -/
def strOfTruthy (xs : List JValue) : List String :=
  (xs.filter (fun r => pyTruthy r)).map pyStr

/-- `KeycloakJwtDecoder._extract_roles`: realm roles from
`realm_access.roles` followed by the client roles of every value of
`resource_access`, each comprehension skipping falsy elements; malformed or
missing claims contribute nothing. -/
def extractRoles (claims : List (String × JValue)) : List String :=
  let realmRoles : List String :=
    match pyGet claims "realm_access" with
    | some (JValue.obj ra) =>
      match pyGet ra "roles" with
      | some (JValue.arr rs) => strOfTruthy rs
      | _ => []
    | _ => []
  let clientRoles : List String :=
    match pyGet claims "resource_access" with
    | some (JValue.obj clients) =>
      (clients.map (fun kv =>
        match kv.2 with
        | JValue.obj ca =>
          match pyGet ca "roles" with
          | some (JValue.arr rs) => strOfTruthy rs
          | _ => []
        | _ => [])).flatten
    | _ => []
  realmRoles ++ clientRoles

/-- The `KeycloakUser(...)` construction inside `decode_token`. -/
def userFromClaims (claims : List (String × JValue)) : KeycloakUser :=
  { username := getClaimAsString claims "preferred_username",
    keycloakUserId := getClaimAsString claims "sid",
    tenantId := getClaimAsString claims "tenantId",
    email := getClaimAsString claims "email",
    firstName := getClaimAsString claims "given_name",
    lastName := getClaimAsString claims "family_name",
    realm := extractRealm claims,
    clientId := getClaimAsString claims "azp",
    roles := extractRoles claims,
    emailVerified := getClaimAsBoolean claims "email_verified" }

/-- `KeycloakJwtDecoder.decode_token`.  The input is `Option String` because
the Python argument may be `None`; `jwtDecode` stands for the claim-parsing
library call `jose.jwt.decode` (signature verification disabled), whose
failures (of any exception class) are mapped to an unauthorized error. -/
def decodeToken (token : Option String)
    (jwtDecode : String → Except String (List (String × JValue))) :
    Except BusinessException (Option KeycloakUser) :=
  match token with
  | none =>
    Except.error (UnauthorizedException.mk "Token is null or empty" "token_decode" none)
  | some t =>
    if t = "" || pyStrip t = "" then
      Except.error (UnauthorizedException.mk "Token is null or empty" "token_decode" none)
    else if !isValidJwtFormat t then
      Except.error (UnauthorizedException.mk "Invalid JWT format" "token_decode" none)
    else
      match jwtDecode (normalizeToken t) with
      | Except.error _ =>
        Except.error (UnauthorizedException.mk "Failed to decode JWT token" "token_decode" none)
      | Except.ok claims => Except.ok (some (userFromClaims claims))

/-! ### Keycloak admin auth provider

`src/sucrim/keycloak/keycloak_auth_provider.py`.  Wall-clock time
(`time.time()`) is an explicit `now : Int` parameter (one reading per accessor
call); the token endpoint is an explicit `fetch : FetchResult` oracle standing
for the outcome of the POST in `_refresh_token`.  The ghost field
`refreshCount` counts completed `_refresh_token` executions so that theorems
can observe whether a call refreshed the token; it shadows no source state. -/

/-- `KeycloakConfig`: the seven optional environment-driven fields. -/
structure KeycloakConfig where
  serverUrl : Option String
  clientId : Option String
  clientSecret : Option String
  adminClientId : Option String
  adminClientSecret : Option String
  realm : Option String
  callbackUri : Option String
deriving DecidableEq

/-- Python truthiness of an optional string (`not s` is true for `None` and
for the empty string). -/
def optStrTruthy : Option String → Bool
  | none => false
  | some s => s != ""

/-- The JSON body of a successful token-endpoint response:
`token_data.get("access_token")` and `token_data.get("expires_in")`. -/
structure TokenResponse where
  accessToken : Option String
  expiresIn : Option Int
deriving DecidableEq

/-- Outcome of the token POST: an `httpx.HTTPError` (non-2xx or network
failure), or a parsed JSON body. -/
inductive FetchResult where
  | httpError
  | success (resp : TokenResponse)
deriving DecidableEq

/-- The mutable state of a `KeycloakAuthProvider`: cached token, its expiry,
the last (re)initialization timestamp, and whether `_client` is non-None,
plus the ghost refresh counter. -/
structure ProviderState where
  accessToken : Option String
  tokenExpiresAt : Int
  lastInitTime : Int
  clientOpen : Bool
  refreshCount : Nat
deriving DecidableEq

/-- The field values set by `__init__` before `_initialize()` runs. -/
def initialState : ProviderState :=
  { accessToken := none, tokenExpiresAt := 0, lastInitTime := 0,
    clientOpen := false, refreshCount := 0 }

/-- `RECONNECT_INTERVAL_SECONDS = 15 * 60`. -/
def reconnectIntervalSeconds : Int := 15 * 60

/-- `KeycloakAuthProvider._refresh_token`: require a configured server URL
and realm, perform the POST, cache `access_token`, set the expiry to
`now + expires_in - 60` with `expires_in` defaulting to 300, and fail when
the response carries no truthy access token. -/
def refreshToken (cfg : KeycloakConfig) (now : Int) (fetch : FetchResult)
    (s : ProviderState) : Except String ProviderState :=
  if !optStrTruthy cfg.serverUrl || !optStrTruthy cfg.realm then
    Except.error "Keycloak server URL and realm must be configured"
  else
    match fetch with
    | FetchResult.httpError =>
      Except.error "Failed to refresh Keycloak token"
    | FetchResult.success resp =>
      if !optStrTruthy resp.accessToken then
        Except.error "Access token not found in response"
      else
        Except.ok { s with accessToken := resp.accessToken,
                           tokenExpiresAt := now + resp.expiresIn.getD 300 - 60,
                           refreshCount := s.refreshCount + 1 }

/-- `KeycloakAuthProvider._initialize`: open a fresh HTTP client, record the
(re)initialization time, then fetch a token; any failure surfaces as a fatal
initialization error. -/
def doInit (cfg : KeycloakConfig) (now : Int) (fetch : FetchResult)
    (s : ProviderState) : Except String ProviderState :=
  match refreshToken cfg now fetch { s with clientOpen := true, lastInitTime := now } with
  | Except.error e =>
    Except.error ("Failed to initialize Keycloak authentication provider: " ++ e)
  | Except.ok s2 => Except.ok s2

/-- `KeycloakAuthProvider._reconnect_if_needed`: reinitialize when strictly
more than the 15-minute interval has elapsed since the last
(re)initialization. -/
def reconnectIfNeeded (cfg : KeycloakConfig) (now : Int) (fetch : FetchResult)
    (s : ProviderState) : Except String ProviderState :=
  if now - s.lastInitTime > reconnectIntervalSeconds then doInit cfg now fetch s
  else Except.ok s

/-- The `RuntimeError` message raised by
`KeycloakAuthProvider._ensure_initialized` when `_client` is `None`. -/
def notInitializedMsg : String :=
  "Keycloak client has not been initialized. Call _initialize() first."

/-- `KeycloakAuthProvider.get_admin_access_token`: ensure-initialized check,
reconnect check, refresh when `now >= token_expires_at`, refresh again when
the cached token is falsy, then return the cached token. -/
def getAdminAccessToken (cfg : KeycloakConfig) (now : Int) (fetch : FetchResult)
    (s : ProviderState) : Except String (Option String × ProviderState) :=
  if !s.clientOpen then Except.error notInitializedMsg
  else
    match reconnectIfNeeded cfg now fetch s with
    | Except.error e => Except.error e
    | Except.ok s1 =>
      match (if now ≥ s1.tokenExpiresAt then refreshToken cfg now fetch s1
             else Except.ok s1) with
      | Except.error e => Except.error e
      | Except.ok s2 =>
        match (if !optStrTruthy s2.accessToken then refreshToken cfg now fetch s2
               else Except.ok s2) with
        | Except.error e => Except.error e
        | Except.ok s3 => Except.ok (s3.accessToken, s3)

/-- `KeycloakAuthProvider.get_client`: ensure-initialized check, reconnect
check, then return the HTTP client handle (embedded as the resulting state;
no token-expiry check is performed). -/
def getClient (cfg : KeycloakConfig) (now : Int) (fetch : FetchResult)
    (s : ProviderState) : Except String ProviderState :=
  if !s.clientOpen then Except.error notInitializedMsg
  else reconnectIfNeeded cfg now fetch s

/-- `KeycloakAuthProvider.close`: drop the HTTP client handle. -/
def closeProvider (s : ProviderState) : ProviderState :=
  { s with clientOpen := false }

/-! ### Spec-side definition for the realm-derivation claim -/

/-- The spec's description of realm derivation from the issuer, stated on its
own: the segment after `"/realms/"` in the issuer URL, up to the next `"/"`;
no result when the marker is absent or the segment is empty. -/
def specIssuerRealm (iss : String) : Option String :=
  match pySplit iss "/realms/" with
  | _ :: afterMarker :: _ =>
    let name := (pySplit afterMarker "/").headD ""
    if name = "" then none else some name
  | _ => none

/-! ### Concrete instances used by witnesses and counterexamples -/

/-- A configured Keycloak connection (truthy server URL and realm). -/
def cfgEx : KeycloakConfig :=
  { serverUrl := some "http://kc", clientId := none, clientSecret := none,
    adminClientId := none, adminClientSecret := none, realm := some "master",
    callbackUri := none }

/-- State after construction at time 0 with a token response carrying
`expires_in = 940`: expiry `0 + 940 - 60 = 880`. -/
def provS1 : ProviderState :=
  { accessToken := some "t1", tokenExpiresAt := 880, lastInitTime := 0,
    clientOpen := true, refreshCount := 1 }

/-- State after an accessor call on `provS1` at time 880 (at the expiry) with
a token response carrying `expires_in = 120`: expiry `880 + 120 - 60 = 940`,
last-init time still 0. -/
def provS2 : ProviderState :=
  { accessToken := some "t2", tokenExpiresAt := 940, lastInitTime := 0,
    clientOpen := true, refreshCount := 2 }

/-- State after an accessor call on `provS2` at time 910: the 15-minute
reconnect interval since time 0 has elapsed, so the call reinitializes and
refreshes even though 910 is strictly before the expiry 940. -/
def provS3 : ProviderState :=
  { accessToken := some "t3", tokenExpiresAt := 970, lastInitTime := 910,
    clientOpen := true, refreshCount := 3 }

/-- State after construction at time 0 with `expires_in = 120`: expiry 60. -/
def provS4 : ProviderState :=
  { accessToken := some "t1", tokenExpiresAt := 60, lastInitTime := 0,
    clientOpen := true, refreshCount := 1 }

/-- A pagination object with page 0, size 10 and no totals. -/
def pagEx : Pagination :=
  { page := 0, size := 10, totalElements := none, totalPages := none }

/-- A claim set with a realm role list and one client role list, containing a
duplicate across the two. -/
def claimsEx : List (String × JValue) :=
  [("realm_access", JValue.obj [("roles", JValue.arr [JValue.str "a", JValue.str "b"])]),
   ("resource_access",
    JValue.obj [("app", JValue.obj [("roles", JValue.arr [JValue.str "c", JValue.str "a"])])])]

/-! ## Theorems -/

/-- Claim C9: constructing each error subtype with only a message yields the
documented default status code and default process label (BadRequest 400,
Unauthorized 401, Forbidden 403, NotFound 404, Conflict 409,
UnprocessableEntity 422, InternalServerError 500, ServiceUnavailable 503),
while Validation defaults to 422 and the base business error to 400, both
with caller-supplied required process labels and overridable status codes. -/
theorem claim9_subtype_defaults :
    ∀ (m p : String) (c : Int),
      (BadRequestException.mkDefault m).statusCode = 400
      ∧ (BadRequestException.mkDefault m).process = "Processing Client Request"
      ∧ (UnauthorizedException.mkDefault m).statusCode = 401
      ∧ (UnauthorizedException.mkDefault m).process = "Authentication"
      ∧ (ForbiddenException.mkDefault m).statusCode = 403
      ∧ (ForbiddenException.mkDefault m).process = "Authorization"
      ∧ (NotFoundException.mkDefault m).statusCode = 404
      ∧ (NotFoundException.mkDefault m).process = "Resource Lookup"
      ∧ (ConflictException.mkDefault m).statusCode = 409
      ∧ (ConflictException.mkDefault m).process = "Resource Conflict"
      ∧ (UnprocessableEntityException.mkDefault m).statusCode = 422
      ∧ (UnprocessableEntityException.mkDefault m).process = "Data Validation"
      ∧ (InternalServerErrorException.mkDefault m).statusCode = 500
      ∧ (InternalServerErrorException.mkDefault m).process = "Internal Server Error"
      ∧ (ServiceUnavailableException.mkDefault m).statusCode = 503
      ∧ (ServiceUnavailableException.mkDefault m).process = "Service Availability"
      ∧ (ValidationException.mkDefault m p).statusCode = 422
      ∧ (ValidationException.mkDefault m p).process = p
      ∧ (ValidationException.mk m p c none).statusCode = c
      ∧ (BusinessException.mkDefault m p).statusCode = 400
      ∧ (BusinessException.mkDefault m p).process = p
      ∧ (BusinessException.mkFull m p c none).statusCode = c := by
  intro m p c
  exact ⟨rfl, rfl, rfl, rfl, rfl, rfl, rfl, rfl, rfl, rfl, rfl, rfl, rfl, rfl,
    rfl, rfl, rfl, rfl, rfl, rfl, rfl, rfl⟩

/-- Claim C7: the exception-to-HTTP adapter is a fixed most-specific-first
dispatch: a business error keeps its own status and `{message, process,
errors}` body; an expired-signature error yields the fixed 401 body with
process `access_token`; a framework HTTP error passes its status through with
its detail as the message and process `general_error`, except that a 403
whose detail contains "is required to perform this action" has its message
rewritten to the fixed generic unauthorized message at the same status; and
every other exception yields the fixed 500 `internal_error` body independent
of the exception's detail. -/
theorem claim7_handler_dispatch :
    (∀ e : BusinessException,
      handleException (RaisedException.business e) =
        { statusCode := e.statusCode, message := e.message, process := e.process,
          errors := some e.errors })
    ∧ handleException RaisedException.expiredSignature =
        { statusCode := 401, message := "Token has expired.",
          process := "access_token", errors := none }
    ∧ (∀ (st : Int) (d : String),
        (handleException (RaisedException.httpException st d)).statusCode = st
        ∧ (handleException (RaisedException.httpException st d)).process = "general_error")
    ∧ (∀ d : String, pyInStr "is required to perform this action" d = true →
        handleException (RaisedException.httpException 403 d) =
          { statusCode := 403, message := "You are not authorized to perform this action",
            process := "general_error", errors := none })
    ∧ (∀ (st : Int) (d : String),
        ¬(st = 403 ∧ pyInStr "is required to perform this action" d = true) →
        handleException (RaisedException.httpException st d) =
          { statusCode := st, message := d, process := "general_error", errors := none })
    ∧ (∀ d₁ d₂ : String,
        handleException (RaisedException.otherException d₁) =
          handleException (RaisedException.otherException d₂))
    ∧ (∀ d : String,
        handleException (RaisedException.otherException d) =
          { statusCode := 500, message := "An unexpected error occurred",
            process := "internal_error", errors := none }) := by
  refine ⟨fun e => rfl, rfl, ?_, ?_, ?_, fun d₁ d₂ => rfl, fun d => rfl⟩
  · intro st d
    simp only [handleException]
    split <;> exact ⟨rfl, rfl⟩
  · intro d h
    simp [handleException, h]
  · intro st d h
    have hc : ¬((decide (st = 403) && pyInStr "is required to perform this action" d) = true) := by
      simp only [Bool.and_eq_true, decide_eq_true_eq]
      exact fun hx => h ⟨hx.1, hx.2⟩
    simp only [handleException, if_neg hc]

/-- Witness for claim C7: the rewritten-403 conjunct at a concrete detail
string containing the trigger substring. -/
theorem claim7_handler_dispatch_witness :
    handleException (RaisedException.httpException 403
        "The admin role is required to perform this action") =
      { statusCode := 403, message := "You are not authorized to perform this action",
        process := "general_error", errors := none } :=
  claim7_handler_dispatch.2.2.2.1
    "The admin role is required to perform this action" (by decide)

/-- Python's `(n + s - 1) // s` computes the rational ceiling of `n / s` for a
positive divisor. -/
theorem fdiv_add_sub_one_eq_ceil (n s : Int) (hs : 0 < s) :
    (n + s - 1).fdiv s = ⌈(n : ℚ) / (s : ℚ)⌉ := by
  have hfd : (n + s - 1).fdiv s = (n + s - 1) / s := Int.fdiv_eq_ediv _ (le_of_lt hs)
  have hkey : s * ((n + s - 1) / s) + (n + s - 1) % s = n + s - 1 := Int.ediv_add_emod _ _
  have hr0 : 0 ≤ (n + s - 1) % s := Int.emod_nonneg _ (ne_of_gt hs)
  have hrs : (n + s - 1) % s < s := Int.emod_lt_of_pos _ hs
  have h1 : n ≤ ((n + s - 1) / s) * s := by nlinarith
  have h2 : (((n + s - 1) / s) - 1) * s < n := by nlinarith
  have hsq : (0 : ℚ) < (s : ℚ) := by exact_mod_cast hs
  rw [hfd]
  symm
  rw [Int.ceil_eq_iff]
  constructor
  · rw [lt_div_iff₀ hsq]
    exact_mod_cast h2
  · rw [div_le_iff₀ hsq]
    exact_mod_cast h1

/-- Claim C8: for a pagination with positive size and a supplied total
element count `n ≥ 0`, `ok_from_page` back-fills `total_elements = n` and
sets `total_pages` to the exact integer ceiling of `n / size`; with no total
supplied, the pagination object is attached unmodified. -/
theorem claim8_ok_from_page :
    ∀ (α : Type) (d : List α) (p : Pagination) (n : Int),
      0 < p.size → 0 ≤ n →
      ApiResponseDto.okFromPage d p (some n) =
        { data := some d,
          pagination :=
            some { p with
                   totalElements := some n,
                   totalPages := some ⌈(n : ℚ) / (p.size : ℚ)⌉ } }
      ∧ ApiResponseDto.okFromPage d p none = { data := some d, pagination := some p } := by
  intro α d p n hs hn
  refine ⟨?_, rfl⟩
  simp only [ApiResponseDto.okFromPage]
  rw [if_pos hs, fdiv_add_sub_one_eq_ceil n p.size hs]

/-- Witness for claim C8: the spec's own example `total = 23`, `size = 10`
yields `total_pages = 3`. -/
theorem claim8_ok_from_page_witness :
    (ApiResponseDto.okFromPage [1, 2, 3] pagEx (some 23)).pagination =
      some { page := 0, size := 10, totalElements := some 23, totalPages := some 3 } := by
  have h := (claim8_ok_from_page Nat [1, 2, 3] pagEx 23 (by decide) (by decide)).1
  rw [h]
  simp only [pagEx]
  norm_num
  rw [Int.ceil_eq_iff]
  norm_num

/-- Claim C6: `decode_token` raises an unauthorized-class error (status 401)
with process label `token_decode` for null, empty or whitespace-only input,
and for input whose bearer-stripped form does not split into exactly three
dot-separated segments; in the latter case the rejection is independent of
the claim-parsing oracle, i.e. it happens before any claim parsing. -/
theorem claim6_decode_validation :
    (∀ dec, decodeToken none dec =
      Except.error (UnauthorizedException.mk "Token is null or empty" "token_decode" none))
    ∧ (∀ (s : String) dec, pyStrip s = "" →
        decodeToken (some s) dec =
          Except.error (UnauthorizedException.mk "Token is null or empty" "token_decode" none))
    ∧ (∀ (s : String) dec, pyStrip s ≠ "" → isValidJwtFormat s = false →
        decodeToken (some s) dec =
          Except.error (UnauthorizedException.mk "Invalid JWT format" "token_decode" none))
    ∧ (∀ m p, (UnauthorizedException.mk m p none).statusCode = 401
        ∧ (UnauthorizedException.mk m p none).process = p) := by
  refine ⟨fun dec => rfl, ?_, ?_, fun m p => ⟨rfl, rfl⟩⟩
  · intro s dec h
    simp [decodeToken, h]
  · intro s dec h1 h2
    have hs : ¬(s = "") := fun he => h1 (by rw [he]; rfl)
    simp [decodeToken, hs, h1, h2]

/-- Witness for claim C6: a two-segment token is rejected with the
unauthorized `token_decode` error for every oracle, here a concrete one. -/
theorem claim6_decode_validation_witness :
    decodeToken (some "a.b") (fun _ => Except.ok []) =
      Except.error (UnauthorizedException.mk "Invalid JWT format" "token_decode" none) :=
  claim6_decode_validation.2.2.1 "a.b" (fun _ => Except.ok []) (by decide) (by decide)

/-- Claim C10: `decode_token` never returns a null result; for every input it
either fails with an unauthorized error (status 401, process `token_decode`)
or returns a user object. -/
theorem claim10_decode_never_none :
    ∀ (token : Option String) (dec : String → Except String (List (String × JValue))),
      (∃ e, decodeToken token dec = Except.error e
        ∧ e.statusCode = 401 ∧ e.process = "token_decode")
      ∨ (∃ u, decodeToken token dec = Except.ok (some u)) := by
  intro token dec
  match token with
  | none => exact Or.inl ⟨_, rfl, rfl, rfl⟩
  | some t =>
    simp only [decodeToken]
    split
    · exact Or.inl ⟨_, rfl, rfl, rfl⟩
    · split
      · exact Or.inl ⟨_, rfl, rfl, rfl⟩
      · cases hd : dec (normalizeToken t) with
        | error e => exact Or.inl ⟨_, rfl, rfl, rfl⟩
        | ok claims => exact Or.inr ⟨_, rfl⟩

/-- The issuer half of `_extract_realm` computes exactly the spec-side
description `specIssuerRealm` on every string issuer: the truthiness and
containment guards of the code are redundant given the split's shape. -/
theorem realmFromIss_str (s : String) :
    realmFromIss (some (JValue.str s)) = specIssuerRealm s := by
  simp only [realmFromIss, specIssuerRealm]
  cases hsp : pySplit s "/realms/" with
  | nil => simp [pyInStr, hsp]
  | cons a tail =>
    cases tail with
    | nil => simp [pyInStr, hsp]
    | cons b rest =>
      have hs : s ≠ "" := by
        intro he
        rw [he] at hsp
        have hempty : pySplit "" "/realms/" = [""] := rfl
        rw [hempty] at hsp
        exact absurd hsp (by simp)
      have hb : (s != "") = true := by simpa [bne_iff_ne] using hs
      simp only [pyInStr, hsp, hb, List.length_cons, Bool.true_and]
      have hlen : (decide (1 < rest.length + 1 + 1)) = true := by
        simp
      rw [hlen]
      by_cases hname : (pySplit b "/").headD "" = ""
      · simp [hname]
      · simp [hname]

/-- Claim C4: for every successfully extracted claim set, the realm is
derived preferentially by parsing the segment after `/realms/` in a
string-valued `iss` claim; only when no non-empty realm name parses from the
issuer does the decoder fall back to the literal `realm` claim, yielding
null when both are absent.  In particular the spec's example issuer yields
realm `acme` with no `realm` claim present. -/
theorem claim4_realm_derivation :
    (∀ claims : List (String × JValue),
      extractRealm claims =
        match (match pyGet claims "iss" with
               | some (JValue.str s) => specIssuerRealm s
               | _ => none) with
        | some r => some r
        | none => Option.map pyStr (pyGet claims "realm"))
    ∧ extractRealm
        [("iss", JValue.str "https://kc.example.com/realms/acme/protocol/openid-connect")]
      = some "acme" := by
  refine ⟨?_, rfl⟩
  intro claims
  simp only [extractRealm]
  cases hiss : pyGet claims "iss" with
  | none =>
    simp only [realmFromIss]
    cases pyGet claims "realm" <;> rfl
  | some v =>
    cases v with
    | str s =>
      rw [realmFromIss_str]
      cases hspec : specIssuerRealm s with
      | some r => simp [hspec]
      | none =>
        cases hre : pyGet claims "realm" <;> simp [hspec, hre]
    | null =>
      simp only [realmFromIss]
      cases pyGet claims "realm" <;> rfl
    | bool b =>
      simp only [realmFromIss]
      cases pyGet claims "realm" <;> rfl
    | num n =>
      simp only [realmFromIss]
      cases pyGet claims "realm" <;> rfl
    | arr xs =>
      simp only [realmFromIss]
      cases pyGet claims "realm" <;> rfl
    | obj fs =>
      simp only [realmFromIss]
      cases pyGet claims "realm" <;> rfl

/-- Claim C5 (amended): for claim sets of the documented shape, the role list
is the concatenation of the `realm_access.roles` array with every
`resource_access.<client>.roles` array, where each comprehension skips falsy
elements and coerces the remaining ones to strings (`strOfTruthy`), with
duplicates not deduplicated; a claim set missing both `realm_access` and
`resource_access` yields the empty list, not an error. -/
theorem claim5_roles_extraction :
    ∀ claims : List (String × JValue),
      ((pyGet claims "realm_access" = none ∧ pyGet claims "resource_access" = none) →
        extractRoles claims = [])
      ∧ (∀ ra rs clients,
          pyGet claims "realm_access" = some (JValue.obj ra) →
          pyGet ra "roles" = some (JValue.arr rs) →
          pyGet claims "resource_access" = some (JValue.obj clients) →
          extractRoles claims =
            strOfTruthy rs ++
              (clients.map (fun kv =>
                match kv.2 with
                | JValue.obj ca =>
                  match pyGet ca "roles" with
                  | some (JValue.arr crs) => strOfTruthy crs
                  | _ => []
                | _ => [])).flatten) := by
  intro claims
  constructor
  · rintro ⟨h1, h2⟩
    simp [extractRoles, h1, h2]
  · intro ra rs clients h1 h2 h3
    simp [extractRoles, h1, h2, h3]

/-- Counterexample to claim C5 as stated: a `realm_access.roles` array
containing an empty string is not mapped element-wise to strings — the code
filters the falsy element out, so the result is not the plain concatenation
of coerced elements the claim describes. -/
theorem claim5_roles_counterexample :
    extractRoles
        [("realm_access", JValue.obj [("roles", JValue.arr [JValue.str "admin", JValue.str ""])])]
      = ["admin"]
    ∧ List.map pyStr [JValue.str "admin", JValue.str ""] = ["admin", ""]
    ∧ (["admin"] : List String) ≠ ["admin", ""] :=
  ⟨rfl, rfl, by decide⟩

/-- Witness for claim C5: a concrete claim set with a realm role list and one
client role list, including a duplicate that is kept. -/
theorem claim5_roles_extraction_witness :
    extractRoles claimsEx = ["a", "b", "c", "a"] := by
  have h := (claim5_roles_extraction claimsEx).2
    [("roles", JValue.arr [JValue.str "a", JValue.str "b"])]
    [JValue.str "a", JValue.str "b"]
    [("app", JValue.obj [("roles", JValue.arr [JValue.str "c", JValue.str "a"])])]
    rfl rfl rfl
  rw [h]
  rfl

/-- A successful `_refresh_token` increments the ghost counter and leaves the
client handle and last-init time untouched. -/
theorem refreshToken_ok_fields (cfg : KeycloakConfig) (now : Int) (fetch : FetchResult)
    (s s' : ProviderState) (h : refreshToken cfg now fetch s = Except.ok s') :
    s'.refreshCount = s.refreshCount + 1 ∧ s'.clientOpen = s.clientOpen
    ∧ s'.lastInitTime = s.lastInitTime := by
  unfold refreshToken at h
  split at h
  · cases h
  · split at h
    · cases h
    · split at h
      · cases h
      · injection h with h2
        subst h2
        exact ⟨rfl, rfl, rfl⟩

/-- With a configured server URL and realm and a response carrying a truthy
access token, `_refresh_token` caches the token and sets the expiry to
`now + expires_in - 60` (default `expires_in = 300`). -/
theorem refreshToken_success_eq (cfg : KeycloakConfig) (now : Int)
    (resp : TokenResponse) (s : ProviderState)
    (h1 : optStrTruthy cfg.serverUrl = true) (h2 : optStrTruthy cfg.realm = true)
    (h3 : optStrTruthy resp.accessToken = true) :
    refreshToken cfg now (FetchResult.success resp) s =
      Except.ok { s with accessToken := resp.accessToken,
                         tokenExpiresAt := now + resp.expiresIn.getD 300 - 60,
                         refreshCount := s.refreshCount + 1 } := by
  unfold refreshToken
  simp [h1, h2, h3]

/-- A successful `_initialize` opens the client, stamps the last-init time
with `now` and performs one token refresh. -/
theorem doInit_ok_fields (cfg : KeycloakConfig) (now : Int) (fetch : FetchResult)
    (s s' : ProviderState) (h : doInit cfg now fetch s = Except.ok s') :
    s'.refreshCount = s.refreshCount + 1 ∧ s'.clientOpen = true
    ∧ s'.lastInitTime = now := by
  unfold doInit at h
  cases hrt : refreshToken cfg now fetch
      { s with clientOpen := true, lastInitTime := now } with
  | error e =>
    rw [hrt] at h
    cases h
  | ok s2 =>
    rw [hrt] at h
    injection h with h2
    subst h2
    have hf := refreshToken_ok_fields cfg now fetch _ _ hrt
    exact ⟨hf.1, hf.2.1, hf.2.2⟩

/-- A conditional refresh step (`if cond: self._refresh_token()`) never
decreases the ghost counter, increments it exactly when the condition holds,
and is the identity otherwise. -/
theorem condRefresh_fields (cfg : KeycloakConfig) (now : Int) (fetch : FetchResult)
    (p : Prop) [Decidable p] (s s' : ProviderState)
    (h : (if p then refreshToken cfg now fetch s else Except.ok s) = Except.ok s') :
    (p → s'.refreshCount = s.refreshCount + 1) ∧ (¬p → s' = s)
    ∧ s'.lastInitTime = s.lastInitTime ∧ s'.clientOpen = s.clientOpen := by
  split at h
  · rename_i hp
    have hf := refreshToken_ok_fields cfg now fetch _ _ h
    exact ⟨fun _ => hf.1, fun hnp => absurd hp hnp, hf.2.2, hf.2.1⟩
  · rename_i hnp
    injection h with h2
    subst h2
    exact ⟨fun hp => absurd hp hnp, fun _ => rfl, rfl, rfl⟩

/-- On an initialized provider, any successful `get_admin_access_token` call
at or after the cached expiry performs at least one token refresh. -/
theorem getAdmin_refreshes_of_expired (cfg : KeycloakConfig) (now : Int)
    (fetch : FetchResult) (s : ProviderState)
    (hopen : s.clientOpen = true) (hexp : now ≥ s.tokenExpiresAt) :
    ∀ t s', getAdminAccessToken cfg now fetch s = Except.ok (t, s') →
      s.refreshCount < s'.refreshCount := by
  intro t s' hok
  unfold getAdminAccessToken at hok
  rw [hopen] at hok
  simp only [Bool.not_true, Bool.false_eq_true, if_false] at hok
  cases hrec : reconnectIfNeeded cfg now fetch s with
  | error e =>
    simp only [hrec] at hok
    exact Except.noConfusion hok
  | ok s1 =>
    simp only [hrec] at hok
    cases hstep2 : (if now ≥ s1.tokenExpiresAt then refreshToken cfg now fetch s1
                    else Except.ok s1) with
    | error e =>
      simp only [hstep2] at hok
      exact Except.noConfusion hok
    | ok s2 =>
      simp only [hstep2] at hok
      cases hstep3 : (if !optStrTruthy s2.accessToken then refreshToken cfg now fetch s2
                      else Except.ok s2) with
      | error e =>
        simp only [hstep3] at hok
        exact Except.noConfusion hok
      | ok s3 =>
        simp only [hstep3] at hok
        injection hok with hpair
        have hs' : s3 = s' := congrArg Prod.snd hpair
        subst hs'
        have hc3 := condRefresh_fields cfg now fetch _ s2 s3 hstep3
        have hc2 := condRefresh_fields cfg now fetch _ s1 s2 hstep2
        unfold reconnectIfNeeded at hrec
        split at hrec
        · have hd := doInit_ok_fields cfg now fetch s s1 hrec
          by_cases hq2 : now ≥ s1.tokenExpiresAt
          · have := hc2.1 hq2
            by_cases hq3 : (!optStrTruthy s2.accessToken) = true
            · have := hc3.1 hq3
              omega
            · have := hc3.2.1 hq3
              subst this
              omega
          · have := hc2.2.1 hq2
            subst this
            by_cases hq3 : (!optStrTruthy s2.accessToken) = true
            · have := hc3.1 hq3
              omega
            · have := hc3.2.1 hq3
              subst this
              omega
        · injection hrec with h1
          subst h1
          have h2 := hc2.1 hexp
          by_cases hq3 : (!optStrTruthy s2.accessToken) = true
          · have := hc3.1 hq3
            omega
          · have := hc3.2.1 hq3
            subst this
            omega

/-- On an initialized provider with an unexpired, truthy cached token and the
reconnect interval not yet elapsed, `get_admin_access_token` returns the
cached token and leaves the state untouched. -/
theorem getAdmin_cached (cfg : KeycloakConfig) (now : Int) (fetch : FetchResult)
    (s : ProviderState) (hopen : s.clientOpen = true)
    (hexp : now < s.tokenExpiresAt)
    (hint : now - s.lastInitTime ≤ reconnectIntervalSeconds)
    (htok : optStrTruthy s.accessToken = true) :
    getAdminAccessToken cfg now fetch s = Except.ok (s.accessToken, s) := by
  unfold getAdminAccessToken reconnectIfNeeded
  rw [hopen]
  simp only [Bool.not_true, Bool.false_eq_true, if_false]
  rw [if_neg (not_lt.mpr hint)]
  dsimp only
  rw [if_neg (not_le.mpr hexp)]
  dsimp only
  rw [htok]
  rfl

/-- Anatomy of a successful `get_admin_access_token` call on an initialized
provider: it is exactly the reconnect check followed by the two conditional
refresh steps of the source, each succeeding. -/
theorem getAdmin_ok_steps (cfg : KeycloakConfig) (now : Int) (fetch : FetchResult)
    (s : ProviderState) (hopen : s.clientOpen = true) (t : Option String)
    (s' : ProviderState)
    (hok : getAdminAccessToken cfg now fetch s = Except.ok (t, s')) :
    ∃ s1 s2, reconnectIfNeeded cfg now fetch s = Except.ok s1
      ∧ (if now ≥ s1.tokenExpiresAt then refreshToken cfg now fetch s1
         else Except.ok s1) = Except.ok s2
      ∧ (if !optStrTruthy s2.accessToken then refreshToken cfg now fetch s2
         else Except.ok s2) = Except.ok s' := by
  unfold getAdminAccessToken at hok
  rw [hopen] at hok
  simp only [Bool.not_true, Bool.false_eq_true, if_false] at hok
  cases hrec : reconnectIfNeeded cfg now fetch s with
  | error e =>
    simp only [hrec] at hok
    exact Except.noConfusion hok
  | ok s1 =>
    simp only [hrec] at hok
    cases hstep2 : (if now ≥ s1.tokenExpiresAt then refreshToken cfg now fetch s1
                    else Except.ok s1) with
    | error e =>
      simp only [hstep2] at hok
      exact Except.noConfusion hok
    | ok s2 =>
      simp only [hstep2] at hok
      cases hstep3 : (if !optStrTruthy s2.accessToken then refreshToken cfg now fetch s2
                      else Except.ok s2) with
      | error e =>
        simp only [hstep3] at hok
        exact Except.noConfusion hok
      | ok s3 =>
        simp only [hstep3] at hok
        injection hok with hpair
        have hs' : s3 = s' := congrArg Prod.snd hpair
        subst hs'
        exact ⟨s1, s2, rfl, hstep2, hstep3⟩

/-- When strictly more than the 15-minute interval has elapsed since the last
(re)initialization, any successful `get_admin_access_token` call has gone
through `_initialize`: the resulting state carries a fresh last-init stamp
`now`, an open client, and at least one more completed token refresh. -/
theorem getAdmin_reinit_of_interval (cfg : KeycloakConfig) (now : Int)
    (fetch : FetchResult) (s : ProviderState) (hopen : s.clientOpen = true)
    (hint : now - s.lastInitTime > reconnectIntervalSeconds) :
    ∀ t s', getAdminAccessToken cfg now fetch s = Except.ok (t, s') →
      s'.lastInitTime = now ∧ s'.clientOpen = true
      ∧ s.refreshCount < s'.refreshCount := by
  intro t s' hok
  obtain ⟨s1, s2, hrec, hstep2, hstep3⟩ := getAdmin_ok_steps cfg now fetch s hopen t s' hok
  unfold reconnectIfNeeded at hrec
  rw [if_pos hint] at hrec
  have hd := doInit_ok_fields cfg now fetch s s1 hrec
  obtain ⟨hc2a, hc2b, hc2lt, hc2co⟩ := condRefresh_fields cfg now fetch _ s1 s2 hstep2
  obtain ⟨hc3a, hc3b, hc3lt, hc3co⟩ := condRefresh_fields cfg now fetch _ s2 s' hstep3
  refine ⟨by rw [hc3lt, hc2lt, hd.2.2], by rw [hc3co, hc2co, hd.2.1], ?_⟩
  by_cases hq2 : now ≥ s1.tokenExpiresAt
  · have h2 := hc2a hq2
    by_cases hq3 : (!optStrTruthy s2.accessToken) = true
    · have h3 := hc3a hq3
      omega
    · have h3 := hc3b hq3
      rw [h3]
      omega
  · have h2 := hc2b hq2
    by_cases hq3 : (!optStrTruthy s2.accessToken) = true
    · have h3 := hc3a hq3
      rw [h2] at h3
      omega
    · have h3 := hc3b hq3
      rw [h3, h2]
      omega

/-- When no truthy token is cached, any successful `get_admin_access_token`
call performs at least one token refresh, whichever of the three refresh
sites fires. -/
theorem getAdmin_refreshes_of_no_token (cfg : KeycloakConfig) (now : Int)
    (fetch : FetchResult) (s : ProviderState) (hopen : s.clientOpen = true)
    (htok : optStrTruthy s.accessToken = false) :
    ∀ t s', getAdminAccessToken cfg now fetch s = Except.ok (t, s') →
      s.refreshCount < s'.refreshCount := by
  intro t s' hok
  obtain ⟨s1, s2, hrec, hstep2, hstep3⟩ := getAdmin_ok_steps cfg now fetch s hopen t s' hok
  obtain ⟨hc2a, hc2b, hc2lt, hc2co⟩ := condRefresh_fields cfg now fetch _ s1 s2 hstep2
  obtain ⟨hc3a, hc3b, hc3lt, hc3co⟩ := condRefresh_fields cfg now fetch _ s2 s' hstep3
  unfold reconnectIfNeeded at hrec
  split at hrec
  · have hd := doInit_ok_fields cfg now fetch s s1 hrec
    by_cases hq2 : now ≥ s1.tokenExpiresAt
    · have h2 := hc2a hq2
      by_cases hq3 : (!optStrTruthy s2.accessToken) = true
      · have h3 := hc3a hq3
        omega
      · have h3 := hc3b hq3
        rw [h3]
        omega
    · have h2 := hc2b hq2
      by_cases hq3 : (!optStrTruthy s2.accessToken) = true
      · have h3 := hc3a hq3
        rw [h2] at h3
        omega
      · have h3 := hc3b hq3
        rw [h3, h2]
        omega
  · injection hrec with h1
    subst h1
    by_cases hq2 : now ≥ s.tokenExpiresAt
    · have h2 := hc2a hq2
      by_cases hq3 : (!optStrTruthy s2.accessToken) = true
      · have h3 := hc3a hq3
        omega
      · have h3 := hc3b hq3
        rw [h3]
        omega
    · have h2 := hc2b hq2
      have hq3 : (!optStrTruthy s2.accessToken) = true := by
        rw [h2, htok]
        rfl
      have h3 := hc3a hq3
      rw [h2] at h3
      omega

/-- Claim C1 (amended): a successful token fetch at time `now` returning
`expires_in = E` sets the cached expiry to `now + E - 60` (`E` defaulting to
300 when absent); on an initialized provider, `get_admin_access_token` called
at or after that expiry performs a token refresh; and a call strictly before
the expiry that also falls within 15 minutes of the last (re)initialization
returns the cached token without refreshing.  (As originally stated — no
refresh on any call strictly before the expiry — the claim fails once the
15-minute reconnect interval elapses; see the counterexample.) -/
theorem claim1_expiry_refresh_policy :
    ∀ (cfg : KeycloakConfig) (now : Int) (fetch : FetchResult) (resp : TokenResponse)
      (s : ProviderState),
      (optStrTruthy cfg.serverUrl = true → optStrTruthy cfg.realm = true →
        optStrTruthy resp.accessToken = true →
        refreshToken cfg now (FetchResult.success resp) s =
          Except.ok { s with accessToken := resp.accessToken,
                             tokenExpiresAt := now + resp.expiresIn.getD 300 - 60,
                             refreshCount := s.refreshCount + 1 })
      ∧ (s.clientOpen = true → now ≥ s.tokenExpiresAt →
          ∀ t s', getAdminAccessToken cfg now fetch s = Except.ok (t, s') →
            s.refreshCount < s'.refreshCount)
      ∧ (s.clientOpen = true → now < s.tokenExpiresAt →
          now - s.lastInitTime ≤ reconnectIntervalSeconds →
          optStrTruthy s.accessToken = true →
          getAdminAccessToken cfg now fetch s = Except.ok (s.accessToken, s)) := by
  intro cfg now fetch resp s
  exact ⟨refreshToken_success_eq cfg now resp s,
    fun hopen hexp => getAdmin_refreshes_of_expired cfg now fetch s hopen hexp,
    fun hopen hexp hint htok => getAdmin_cached cfg now fetch s hopen hexp hint htok⟩

/-- Witness for claim C1: on `provS2` (expiry 940, last init 0) a call at 900
is before the expiry and within the reconnect interval, so it returns the
cached token unchanged — even the fetch oracle failing shows no request is
made. -/
theorem claim1_expiry_refresh_policy_witness :
    getAdminAccessToken cfgEx 900 FetchResult.httpError provS2 =
      Except.ok (some "t2", provS2) :=
  (claim1_expiry_refresh_policy cfgEx 900 FetchResult.httpError
    { accessToken := some "x", expiresIn := none } provS2).2.2
    rfl (by decide) (by decide) rfl

/-- Counterexample to claim C1 as stated: a reachable trace (construction at
time 0, expiry-triggered refresh at 880 yielding expiry 940) in which the
accessor call at 910 — strictly before the expiry 940 — nevertheless
refreshes the token, because more than 15 minutes have elapsed since the
last initialization. -/
theorem claim1_counterexample :
    doInit cfgEx 0 (FetchResult.success { accessToken := some "t1", expiresIn := some 940 })
        initialState = Except.ok provS1
    ∧ getAdminAccessToken cfgEx 880
        (FetchResult.success { accessToken := some "t2", expiresIn := some 120 }) provS1 =
        Except.ok (some "t2", provS2)
    ∧ (910 : Int) < provS2.tokenExpiresAt
    ∧ getAdminAccessToken cfgEx 910
        (FetchResult.success { accessToken := some "t3", expiresIn := some 120 }) provS2 =
        Except.ok (some "t3", provS3)
    ∧ provS3.refreshCount = provS2.refreshCount + 1
    ∧ provS3.accessToken ≠ provS2.accessToken :=
  ⟨rfl, rfl, by decide, rfl, rfl, by decide⟩

/-- Claim C2 (amended): on an initialized provider, `get_admin_access_token`
applies both invalidation checks on every call — when strictly more than 15
minutes have elapsed since the last (re)initialization it fully
reinitializes (fresh last-init stamp, open client, fresh token fetch), and it
refreshes the token when the cached expiry has passed or when no truthy
token is cached — but `get_client` applies only the reinitialization check:
within the interval it returns with the state untouched even when the cached
token has expired. -/
theorem claim2_accessor_checks :
    ∀ (cfg : KeycloakConfig) (now : Int) (fetch : FetchResult) (s : ProviderState),
      s.clientOpen = true →
      (now - s.lastInitTime ≤ reconnectIntervalSeconds →
        getClient cfg now fetch s = Except.ok s)
      ∧ (now - s.lastInitTime > reconnectIntervalSeconds →
        getClient cfg now fetch s = doInit cfg now fetch s)
      ∧ (now - s.lastInitTime > reconnectIntervalSeconds →
        ∀ t s', getAdminAccessToken cfg now fetch s = Except.ok (t, s') →
          s'.lastInitTime = now ∧ s'.clientOpen = true
          ∧ s.refreshCount < s'.refreshCount)
      ∧ (now ≥ s.tokenExpiresAt →
        ∀ t s', getAdminAccessToken cfg now fetch s = Except.ok (t, s') →
          s.refreshCount < s'.refreshCount)
      ∧ (optStrTruthy s.accessToken = false →
        ∀ t s', getAdminAccessToken cfg now fetch s = Except.ok (t, s') →
          s.refreshCount < s'.refreshCount) := by
  intro cfg now fetch s hopen
  refine ⟨?_, ?_,
    fun hint => getAdmin_reinit_of_interval cfg now fetch s hopen hint,
    fun hexp => getAdmin_refreshes_of_expired cfg now fetch s hopen hexp,
    fun htok => getAdmin_refreshes_of_no_token cfg now fetch s hopen htok⟩
  · intro hint
    unfold getClient reconnectIfNeeded
    rw [hopen]
    simp only [Bool.not_true, Bool.false_eq_true, if_false]
    rw [if_neg (not_lt.mpr hint)]
  · intro hint
    unfold getClient reconnectIfNeeded
    rw [hopen]
    simp only [Bool.not_true, Bool.false_eq_true, if_false]
    rw [if_pos hint]

/-- Witness for claim C2: `get_client` at time 100 on a provider initialized
at time 0 returns the client with the state untouched although the cached
token expired at 60, while `get_admin_access_token` at time 910 on `provS2`
(last init 0, more than 15 minutes earlier) reinitializes: fresh last-init
stamp 910, open client, and a completed refresh. -/
theorem claim2_accessor_checks_witness :
    (getClient cfgEx 100 FetchResult.httpError provS4 = Except.ok provS4
      ∧ (100 : Int) ≥ provS4.tokenExpiresAt)
    ∧ (provS3.lastInitTime = 910 ∧ provS3.clientOpen = true
      ∧ provS2.refreshCount < provS3.refreshCount) :=
  ⟨⟨(claim2_accessor_checks cfgEx 100 FetchResult.httpError provS4 rfl).1 (by decide),
    by decide⟩,
   (claim2_accessor_checks cfgEx 910
      (FetchResult.success { accessToken := some "t3", expiresIn := some 120 })
      provS2 rfl).2.2.1 (by decide) (some "t3") provS3 rfl⟩

/-- Counterexample to claim C2 as stated: after construction at time 0 with
`expires_in = 120` (expiry 60), a `get_client` call at time 100 — with the
cached token expired and a fetch that would succeed available — performs no
token refresh and returns the state unchanged, so `get_client` does not
apply the token-expiry check the claim attributes to every accessor. -/
theorem claim2_counterexample :
    doInit cfgEx 0 (FetchResult.success { accessToken := some "t1", expiresIn := some 120 })
        initialState = Except.ok provS4
    ∧ (100 : Int) ≥ provS4.tokenExpiresAt
    ∧ getClient cfgEx 100
        (FetchResult.success { accessToken := some "t9", expiresIn := some 300 }) provS4 =
        Except.ok provS4
    ∧ provS4.refreshCount = 1 :=
  ⟨rfl, by decide, rfl, rfl⟩

/-- Claim C3 (amended): `close()` drops the HTTP client, and a subsequent
accessor call — `get_admin_access_token` or `get_client` — raises the
not-initialized `RuntimeError` instead of reinitializing. -/
theorem claim3_closed_provider :
    (∀ s : ProviderState, (closeProvider s).clientOpen = false)
    ∧ (∀ (cfg : KeycloakConfig) (now : Int) (fetch : FetchResult) (s : ProviderState),
        s.clientOpen = false →
        getAdminAccessToken cfg now fetch s = Except.error notInitializedMsg
        ∧ getClient cfg now fetch s = Except.error notInitializedMsg) := by
  refine ⟨fun s => rfl, ?_⟩
  intro cfg now fetch s hclosed
  constructor
  · unfold getAdminAccessToken
    rw [hclosed]
    rfl
  · unfold getClient
    rw [hclosed]
    rfl

/-- Witness for claim C3: the accessor on an explicitly closed provider
yields the not-initialized error. -/
theorem claim3_closed_provider_witness :
    getAdminAccessToken cfgEx 10 FetchResult.httpError (closeProvider provS1) =
      Except.error notInitializedMsg :=
  (claim3_closed_provider.2 cfgEx 10 FetchResult.httpError (closeProvider provS1) rfl).1

/-- Counterexample to claim C3 as stated: after a successful construction and
an explicit close, both accessors return the not-initialized error — they do
not reinitialize and succeed, even though the supplied fetch would succeed. -/
theorem claim3_counterexample :
    doInit cfgEx 0 (FetchResult.success { accessToken := some "t1", expiresIn := some 940 })
        initialState = Except.ok provS1
    ∧ getAdminAccessToken cfgEx 5
        (FetchResult.success { accessToken := some "t9", expiresIn := some 300 })
        (closeProvider provS1) = Except.error notInitializedMsg
    ∧ getClient cfgEx 5
        (FetchResult.success { accessToken := some "t9", expiresIn := some 300 })
        (closeProvider provS1) = Except.error notInitializedMsg :=
  ⟨rfl, rfl, rfl⟩

end Sucrim

